import Mathlib

/-!
Verification development for the Nova Transmit streaming translation
pipeline (`transulator4_Pro.py`).  The Python program is shallowly
embedded: the shared `TranslatorState` object becomes a Lean structure,
each worker's loop body becomes a pure step function threading the state
explicitly, and the collaborators (speech recognizer, translator,
microphone) become explicit outcome parameters.  Machine timestamps are
rational numbers; audio segments are opaque tokens.
-/

/-! ## Python string primitives used by the program -/

/-- Python `str.lower()` restricted to the ASCII range, as used on the
recognizer output (all correction keys and values are ASCII). -/
def pyLower (s : String) : String :=
  String.mk (s.data.map Char.toLower)

/-- Python `str.upper()` restricted to the ASCII range. -/
def pyUpper (s : String) : String :=
  String.mk (s.data.map Char.toUpper)

/-- One pass of Python `str.replace`: replaces every non-overlapping
occurrence of `pat` left to right.  Fuel-indexed structural recursion;
the caller passes the length of the input as fuel, which suffices
because each step consumes at least one character when `pat` is
non-empty (the program only uses non-empty patterns). -/
def replaceFuel (pat rep : List Char) : Nat → List Char → List Char
  | _, [] => []
  | 0, l => l
  | Nat.succ n, c :: rest =>
    if pat ≠ [] ∧ (c :: rest).take pat.length = pat then
      rep ++ replaceFuel pat rep n ((c :: rest).drop pat.length)
    else
      c :: replaceFuel pat rep n rest

/-- Python `s.replace(pat, rep)` for non-empty `pat`. -/
def pyReplace (s pat rep : String) : String :=
  String.mk (replaceFuel pat.data rep.data s.data.length s.data)

/-- Helper for `pyTitle`: the boolean records whether the previous
character was alphabetic. -/
def pyTitleGo : Bool → List Char → List Char
  | _, [] => []
  | prevAlpha, c :: rest =>
    (if c.isAlpha then (if prevAlpha then c.toLower else c.toUpper) else c)
      :: pyTitleGo c.isAlpha rest

/-- Python `str.title()` on ASCII text: a letter is uppercased when it
does not follow a letter and lowercased otherwise; non-letters pass
through unchanged. -/
def pyTitle (s : String) : String :=
  String.mk (pyTitleGo false s.data)

/-- Python whitespace test for `str.strip()` (the characters that occur
in this program's data). -/
def isPySpace (c : Char) : Bool :=
  c = ' ' ∨ c = '\t' ∨ c = '\n' ∨ c = '\r'

/-- Python `str.strip()`: remove leading and trailing whitespace. -/
def pyStrip (s : String) : String :=
  String.mk (((s.data.dropWhile isPySpace).reverse.dropWhile isPySpace).reverse)

/-! ## Lexical correction (`CORRECTIONS`, `fix_words`) -/

/-- The `CORRECTIONS` dictionary, in Python insertion order. -/
def CORRECTIONS : List (String × String) :=
  [("chat gpt", "ChatGPT"),
   ("you tube", "YouTube"),
   ("mine craft", "Minecraft"),
   ("ram sathvik", "Ram Sathvik"),
   ("open ai", "OpenAI")]

/-- `fix_words(text)`: lowercase the text, replace each correction key by
the lowercase of its canonical value (in dictionary order), then
title-case the result. -/
def fix_words (text : String) : String :=
  let t := pyLower text
  let t := CORRECTIONS.foldl (fun acc kv => pyReplace acc kv.1 (pyLower kv.2)) t
  pyTitle t

/-! ## Data model: settings, history entries, workers, shared state -/

/-- The `state.settings` dictionary.  The two `disable_*_debug` keys are
read with `.get(key, False)`; no statement in the program ever inserts
them, so in every reachable state their value is `false`, but they are
kept here so `start_session`'s filtering logic is embedded faithfully. -/
structure Settings where
  speaker_a_lang : String
  speaker_a_locale : String
  speaker_b_lang : String
  speaker_b_locale : String
  active_speaker : String
  sensitivity : Nat
  voice_speed : ℚ
  noise_reduction : Bool
  device_index : Option Nat
  disable_mic_debug : Bool
  disable_tts_debug : Bool
deriving DecidableEq

/-- One committed history entry (`add_history` builds these). -/
structure HistoryEntry where
  timestamp : String
  original : String
  translated : String
  src_lang : String
  tgt_lang : String
  speaker : String
  confidence : ℚ
deriving DecidableEq

/-- A spawned worker thread: its stage name and the generation (`run_id`)
it was bound to at spawn time. -/
structure Worker where
  name : String
  gen : Nat
deriving DecidableEq

/-- A synthesis job as enqueued by the finalization timer:
`(run_id, translated text, target language)`. -/
def TtsJob : Type := Nat × String × String

instance : DecidableEq TtsJob := by
  unfold TtsJob
  infer_instance

/-- The shared `TranslatorState`.  Queues are lists (front = head),
threading `Event`s are booleans, the pygame music channel is the
`music_playing` flag, and the three entries of `worker_status` are
separate fields.  Audio segments are opaque `Nat` tokens. -/
structure TranslatorState where
  tts_queue : List TtsJob
  audio_chunk_queue : List Nat
  stop_event : Bool
  speaking_event : Bool
  active_threads : List Worker
  run_id : Nat
  manual_stop : Bool
  is_running : Bool
  history : List HistoryEntry
  history_version : Nat
  status_msg : String
  error_msg : String
  capture_status : String
  processor_status : String
  tts_status : String
  music_playing : Bool
  hardware_ready : Bool
  settings : Settings
  live_caption : String
  live_translation : String
deriving DecidableEq

/-- The state built by `TranslatorState.__init__`. -/
def initState : TranslatorState where
  tts_queue := []
  audio_chunk_queue := []
  stop_event := false
  speaking_event := false
  active_threads := []
  run_id := 0
  manual_stop := false
  is_running := false
  history := []
  history_version := 0
  status_msg := "Ready"
  error_msg := ""
  capture_status := "Idle"
  processor_status := "Idle"
  tts_status := "Idle"
  music_playing := false
  hardware_ready := false
  settings :=
    { speaker_a_lang := "en", speaker_a_locale := "en-US"
      speaker_b_lang := "hi", speaker_b_locale := "hi-IN"
      active_speaker := "A", sensitivity := 120, voice_speed := 1
      noise_reduction := false, device_index := none
      disable_mic_debug := false, disable_tts_debug := false }
  live_caption := ""
  live_translation := ""

/-- Builds the dictionary committed by `add_history` (confidence is the
literal 1.0). -/
def mkHistoryEntry (ts original translated src tgt speaker : String) : HistoryEntry :=
  { timestamp := ts, original := original, translated := translated
    src_lang := src, tgt_lang := tgt, speaker := speaker, confidence := 1 }

/-- `TranslatorState.add_history`: prepend the entry, bump the history
version, and reset the live caption and translation to empty.  The
timestamp string is passed in (the Python code formats the wall clock). -/
def add_history (s : TranslatorState)
    (original translated src_lang tgt_lang speaker ts : String) : TranslatorState :=
  { s with
    history := mkHistoryEntry ts original translated src_lang tgt_lang speaker :: s.history
    history_version := s.history_version + 1
    live_caption := ""
    live_translation := "" }

/-! ## Session controller (`start_session`, `stop_session`) -/

/-- The worker list built by `start_session`: the four stage workers
bound to `rid`, with the Capture and TTS entries filtered out when the
corresponding debug setting is present and true. -/
def spawn_threads (rid : Nat) (stg : Settings) : List Worker :=
  let ts : List Worker :=
    [{ name := "Capture", gen := rid }, { name := "Processor", gen := rid },
     { name := "Timer", gen := rid }, { name := "TTS", gen := rid }]
  let ts := if stg.disable_mic_debug then ts.filter (fun t => t.name ≠ "Capture") else ts
  if stg.disable_tts_debug then ts.filter (fun t => t.name ≠ "TTS") else ts

/-- `TranslatorState.start_session`: early return when already running;
otherwise mark running, make the hardware ready, clear the stop signal
and manual-stop flag, increment `run_id`, and spawn the workers bound to
the new generation. -/
def start_session (s : TranslatorState) : TranslatorState :=
  if s.is_running then s
  else
    let s := { s with is_running := true, hardware_ready := true }
    let s := { s with stop_event := false, manual_stop := false, run_id := s.run_id + 1 }
    { s with active_threads := spawn_threads s.run_id s.settings }

/-- `TranslatorState.stop_session`: mark not running, set the manual-stop
flag and the stop signal, halt playback, drain both queues, and clear
the speaking flag. -/
def stop_session (s : TranslatorState) : TranslatorState :=
  { s with
    is_running := false
    manual_stop := true
    stop_event := true
    music_playing := false
    tts_queue := []
    audio_chunk_queue := []
    speaking_event := false }

/-! ## Finalization timer (`finalization_timer_worker` loop body)

One poll iteration, with the worker's local variables (`last_caption`,
`silence_start`) threaded explicitly and the wall clock passed as `now`.
Returns the new shared state together with the new local variables. -/

def finalization_poll (s : TranslatorState) (last_caption : String)
    (silence_start : ℚ) (rid : Nat) (now : ℚ) (ts : String) :
    TranslatorState × String × ℚ :=
  let current := s.live_caption
  let translated := s.live_translation
  let stg := s.settings
  if current ≠ "" ∧ current = last_caption then
    if now - silence_start > 1 then
      let src := if stg.active_speaker = "A" then stg.speaker_a_lang else stg.speaker_b_lang
      let tgt := if stg.active_speaker = "A" then stg.speaker_b_lang else stg.speaker_a_lang
      let s1 := add_history s current translated src tgt stg.active_speaker ts
      let s2 := { s1 with tts_queue := [(rid, translated, tgt)] }
      (s2, "", silence_start)
    else
      (s, last_caption, silence_start)
  else
    (s, current, now)

/-! ## Recognition/translation stage (`streaming_processor_worker` loop body) -/

/-- The outcome of a `GoogleTranslator.translate` call. -/
inductive TrOutcome where
  | ok (t : String)
  | err (e : String)
deriving DecidableEq

/-- Result of one processor iteration: the new shared state, the new
`last_translation_time` local, whether the translation collaborator was
invoked, and whether the loop continues to the next segment. -/
structure ProcOut where
  st : TranslatorState
  last_tt : ℚ
  invoked : Bool
  continues : Bool

/-- One iteration of `streaming_processor_worker` after an audio segment
has been taken from the queue.  `recog` is the recognizer's outcome
(`none` models the exception paths: no speech recognized or a service
error), `translate` the translation collaborator, `now` the wall clock
and `last_tt` the worker's `last_translation_time` local. -/
def processor_step (s0 : TranslatorState) (recog : Option String)
    (translate : String → TrOutcome) (now last_tt : ℚ) : ProcOut :=
  let s := { s0 with processor_status := "📡 Processing" }
  let stg := s.settings
  let src_lang := if stg.active_speaker = "A" then stg.speaker_a_lang else stg.speaker_b_lang
  let tgt_lang := if stg.active_speaker = "A" then stg.speaker_b_lang else stg.speaker_a_lang
  match recog with
  | none =>
    { st := { s with processor_status := "❓ Silence (" ++ pyUpper src_lang ++ ")" }
      last_tt := last_tt, invoked := false, continues := true }
  | some text =>
    if text = "" then
      { st := { s with processor_status := "Idle" }
        last_tt := last_tt, invoked := false, continues := true }
    else
      let text := fix_words text
      let s := { s with live_caption := pyStrip (s.live_caption ++ " " ++ text) }
      let current := s.live_caption
      if now - last_tt > 1/2 then
        let s := { s with
          processor_status := "☁️ " ++ pyUpper src_lang ++ " -> " ++ pyUpper tgt_lang }
        if src_lang = tgt_lang then
          { st := { s with live_translation := current
                           history_version := s.history_version + 1 }
            last_tt := now, invoked := false, continues := true }
        else
          match translate current with
          | TrOutcome.ok t =>
            { st := { s with live_translation := t
                             history_version := s.history_version + 1 }
              last_tt := now, invoked := true, continues := true }
          | TrOutcome.err e =>
            { st := { s with error_msg := "Translation Error: " ++ e
                             history_version := s.history_version + 1 }
              last_tt := last_tt, invoked := true, continues := true }
      else
        { st := { s with history_version := s.history_version + 1 }
          last_tt := last_tt, invoked := false, continues := true }

/-! ## Audio capture stage (`audio_capture_worker` inner loop body) -/

/-- Outcome of `adjust_for_ambient_noise`. -/
inductive CalibResult where
  | ok
  | err (e : String)
deriving DecidableEq

/-- Outcome of `r.listen`: audio, a wait timeout, an unknown-value
condition, or another exception. -/
inductive ListenOutcome where
  | ok (a : Nat)
  | waitTimeout
  | unknownVal
  | err (e : String)
deriving DecidableEq

/-- One cycle of the capture worker's inner loop (with the microphone
open): snapshot the settings and update the status label, run pending
noise calibration, then either idle because the synthesis stage is
speaking, or listen.  The boolean reports whether a listen was
attempted. -/
def capture_cycle (s0 : TranslatorState) (calib : CalibResult)
    (listen : ListenOutcome) : TranslatorState × Bool :=
  let s := { s0 with
    capture_status := if s0.speaking_event then "⏸️ Paused" else "🎤 Listening" }
  let s :=
    if s.settings.noise_reduction then
      match calib with
      | CalibResult.ok =>
        { s with capture_status := "🧬 Calibrating"
                 settings := { s.settings with noise_reduction := false } }
      | CalibResult.err e =>
        { s with capture_status := "🧬 Calibrating"
                 error_msg := "Calibration Error: " ++ e }
    else s
  if s.speaking_event then
    (s, false)
  else
    match listen with
    | ListenOutcome.ok a =>
      ({ s with audio_chunk_queue := s.audio_chunk_queue ++ [a], error_msg := "" }, true)
    | ListenOutcome.waitTimeout => (s, true)
    | ListenOutcome.unknownVal => (s, true)
    | ListenOutcome.err e =>
      ({ s with error_msg := "Capture Error: " ++ e, capture_status := "❌ Error" }, true)

/-- Iterated capture cycles, one per element of `inputs`. -/
def capture_cycles (s : TranslatorState) :
    List (CalibResult × ListenOutcome) → TranslatorState
  | [] => s
  | (c, l) :: rest => capture_cycles (capture_cycle s c l).1 rest

/-! ## Synthesis stage playback-rate computation (`tts_worker`) -/

/-- The signed integer percentage encoded by the rate string
(`int` truncates toward zero; both branch arguments are non-negative, so
truncation coincides with the floor). -/
def tts_rate_val (speed : ℚ) : Int :=
  if 1 ≤ speed then Rat.floor ((speed - 1) * 100)
  else -Rat.floor ((1 - speed) * 100)

/-- The literal rate string built by `tts_worker`. -/
def tts_rate_str (speed : ℚ) : String :=
  if 1 ≤ speed then "+" ++ toString (Rat.floor ((speed - 1) * 100)) ++ "%"
  else "-" ++ toString (Rat.floor ((1 - speed) * 100)) ++ "%"

/-! ## Interleaving model for generation staleness

A small-step labelled transition system for one pipeline worker running
concurrently with the session controller.  Every worker in the source
has the same loop shape: a generation check at the loop head (lines
277/287 for capture, 344 for the processor, 398 for the timer, 426 for
TTS) followed by a straight-line iteration body containing no further
generation check; the controller step is `start_session`'s `run_id`
increment (line 152).  An iteration body is abstracted to the list of
its steps, each flagged `true` when it writes the shared mutable state
(live caption/translation, history, the queues, the speaking flag); the
four body definitions below enumerate the cited source lines.  Body
steps are deliberately unguarded by the generation, exactly as in the
source. -/

/-- Program counter of a worker: at the loop-head generation check,
about to execute step `i` of the current iteration body, or exited. -/
inductive GenPc where
  | checkGen
  | inBody (i : Nat)
  | done
deriving DecidableEq

/-- Step labels: a write to shared mutable state, a worker step that
writes none, or the controller starting the next session. -/
inductive GenLbl where
  | write
  | quiet
  | ctrl
deriving DecidableEq

/-- A worker configuration: current session generation, the worker's
captured generation, and its program counter. -/
structure GenSt where
  runId : Nat
  gen : Nat
  pc : GenPc
deriving DecidableEq

/-- `audio_capture_worker` iteration body: the blocking listen
(line 311), then the audio-queue put (line 313, a shared write). -/
def captureBody : List Bool := [false, true]

/-- `streaming_processor_worker` iteration body: queue get (line 346),
transcription (line 359), the live-caption write (line 367), the
translation call (lines 374-378), the live-translation or error write
(lines 381/384), and the history-version write (line 386). -/
def processorBody : List Bool := [false, false, true, false, true, true]

/-- `finalization_timer_worker` finalizing iteration body: the snapshot
read (lines 399-402), the history commit with live-field reset
(line 411), the synthesis-queue drain (lines 413-414), and the
synthesis-queue put (line 416). -/
def timerBody : List Bool := [false, true, true, true]

/-- `tts_worker` iteration body: queue get (line 428), synthesis
(lines 439-444), the speaking-flag set (line 447), playback
(lines 449-453), and the speaking-flag clear (line 454). -/
def ttsBody : List Bool := [false, false, true, false, true]

/-- The program counter after body step `i`: the next body step, or the
loop head when the iteration is finished. -/
def nextPc (body : List Bool) (i : Nat) : GenPc :=
  if i + 1 < body.length then GenPc.inBody (i + 1) else GenPc.checkGen

/-- Labelled steps of a worker with iteration body `body`, interleaved
with the session controller. -/
inductive GenStep (body : List Bool) : GenSt → GenLbl → GenSt → Prop where
  | checkOk (r g : Nat) : g = r →
      GenStep body ⟨r, g, GenPc.checkGen⟩ GenLbl.quiet ⟨r, g, GenPc.inBody 0⟩
  | checkStale (r g : Nat) : g ≠ r →
      GenStep body ⟨r, g, GenPc.checkGen⟩ GenLbl.quiet ⟨r, g, GenPc.done⟩
  | bodyWrite (r g i : Nat) : body.get? i = some true →
      GenStep body ⟨r, g, GenPc.inBody i⟩ GenLbl.write ⟨r, g, nextPc body i⟩
  | bodyQuiet (r g i : Nat) : body.get? i = some false →
      GenStep body ⟨r, g, GenPc.inBody i⟩ GenLbl.quiet ⟨r, g, nextPc body i⟩
  | sessionStart (r g : Nat) (pc : GenPc) :
      GenStep body ⟨r, g, pc⟩ GenLbl.ctrl ⟨r + 1, g, pc⟩

/-- Reachability of the worker-and-controller system under a fixed
iteration body. -/
def GenReach (body : List Bool) : GenSt → GenSt → Prop :=
  Relation.ReflTransGen (fun a b => ∃ l, GenStep body a l b)

/-- The initial configuration: session 1 just started, its worker of
generation 1 at the loop-head check. -/
def genInit : GenSt := ⟨1, 1, GenPc.checkGen⟩

/-- Membership among the four stage workers' iteration bodies. -/
def PipelineBody (body : List Bool) : Prop :=
  body = captureBody ∨ body = processorBody ∨ body = timerBody ∨ body = ttsBody

/-- The claim that a worker of any of the four stages whose captured
generation is older than the current one never writes shared state. -/
def StaleNeverWrites : Prop :=
  ∀ body s l s', PipelineBody body → GenReach body genInit s →
    s.gen < s.runId → GenStep body s l s' → l ≠ GenLbl.write

/-- The invariant behind the amended staleness guarantee: the worker's
generation is stale and it sits at the loop-head check or has exited. -/
def GenStaleInv (s : GenSt) : Prop :=
  s.gen < s.runId ∧ (s.pc = GenPc.checkGen ∨ s.pc = GenPc.done)

/-! ## Theorems -/

/-- Claim C3, counterexample: on the input "my chat gpt is great" the
lexical-correction function does not return "My ChatGPT Is Great" — the
correction value is lowercased before title-casing, which produces
"Chatgpt". -/
theorem c3_fix_words_cex : fix_words "my chat gpt is great" ≠ "My ChatGPT Is Great" := by
  decide

/-- Claim C3 (amended): the lexical-correction function maps each known
mis-transcription to the lowercase of its canonical form and then
title-cases the result, so canonical forms with interior capitals are
lost; for "my chat gpt is great" it returns "My Chatgpt Is Great". -/
theorem c3_fix_words_amended :
    fix_words "my chat gpt is great" = "My Chatgpt Is Great" ∧
    fix_words "chat gpt" = "Chatgpt" ∧
    fix_words "you tube" = "Youtube" ∧
    fix_words "mine craft" = "Minecraft" ∧
    fix_words "ram sathvik" = "Ram Sathvik" ∧
    fix_words "open ai" = "Openai" := by
  decide

/-- Claim C4: `stop_session` empties both queues, clears the speaking
flag, halts playback, marks the session not running, and is idempotent:
a second call (including from a non-running state, since `stop_session`
never inspects `is_running`) produces the identical final state. -/
theorem c4_stop_idempotent (s : TranslatorState) :
    (stop_session s).tts_queue = [] ∧
    (stop_session s).audio_chunk_queue = [] ∧
    (stop_session s).speaking_event = false ∧
    (stop_session s).music_playing = false ∧
    (stop_session s).is_running = false ∧
    stop_session (stop_session s) = stop_session s :=
  ⟨rfl, rfl, rfl, rfl, rfl, rfl⟩

/-- Claim C5: when a session is already running `start_session` changes
nothing; otherwise it increments the generation counter by exactly one,
clears the stop signal, and spawns the four stage workers bound to the
new generation.  The two hypotheses record that the debug-exclusion
settings are absent (no statement in the program ever sets them). -/
theorem c5_start_session (s : TranslatorState)
    (hm : s.settings.disable_mic_debug = false)
    (ht : s.settings.disable_tts_debug = false) :
    (s.is_running = true → start_session s = s) ∧
    (s.is_running = false →
      (start_session s).run_id = s.run_id + 1 ∧
      (start_session s).stop_event = false ∧
      (start_session s).active_threads =
        [{ name := "Capture", gen := s.run_id + 1 },
         { name := "Processor", gen := s.run_id + 1 },
         { name := "Timer", gen := s.run_id + 1 },
         { name := "TTS", gen := s.run_id + 1 }]) := by
  constructor
  · intro h
    simp [start_session, h]
  · intro h
    simp [start_session, h, spawn_threads, hm, ht]

/-- Claim C5, witness at the freshly constructed state. -/
theorem c5_start_session_witness :
    (start_session initState).run_id = 1 ∧
    (start_session initState).stop_event = false ∧
    (start_session initState).active_threads =
      [{ name := "Capture", gen := 1 }, { name := "Processor", gen := 1 },
       { name := "Timer", gen := 1 }, { name := "TTS", gen := 1 }] :=
  (c5_start_session initState rfl rfl).2 rfl

/-- Claim C9: the playback-rate adjustment is the signed integer
percentage 0 at speed 1.0 (rendered "+0%"), `int((s-1)*100)` above 1.0
(rendered with a "+" sign), and `-int((1-s)*100)` below 1.0 (rendered
with a "-" sign); the `int` truncation equals the floor because both
branch arguments are non-negative. -/
theorem c9_rate (s : ℚ) :
    tts_rate_val 1 = 0 ∧ tts_rate_str 1 = "+0%" ∧
    (1 < s → tts_rate_val s = Rat.floor ((s - 1) * 100) ∧
      tts_rate_str s = "+" ++ toString (Rat.floor ((s - 1) * 100)) ++ "%") ∧
    (s < 1 → tts_rate_val s = -Rat.floor ((1 - s) * 100) ∧
      tts_rate_str s = "-" ++ toString (Rat.floor ((1 - s) * 100)) ++ "%") := by
  have e0 : ((1:ℚ) - 1) * 100 = 0 := by norm_num
  refine ⟨?_, ?_, fun h => ?_, fun h => ?_⟩
  · rw [tts_rate_val, if_pos (le_refl (1:ℚ)), e0]
    decide
  · rw [tts_rate_str, if_pos (le_refl (1:ℚ)), e0]
    decide
  · rw [tts_rate_val, tts_rate_str, if_pos (le_of_lt h), if_pos (le_of_lt h)]
    exact ⟨rfl, rfl⟩
  · rw [tts_rate_val, tts_rate_str, if_neg (not_le.mpr h), if_neg (not_le.mpr h)]
    exact ⟨rfl, rfl⟩

/-- Claim C9, witness at speeds 1.5 and 0.5. -/
theorem c9_rate_witness :
    tts_rate_val (3/2) = 50 ∧ tts_rate_str (3/2) = "+50%" ∧
    tts_rate_val (1/2) = -50 ∧ tts_rate_str (1/2) = "-50%" := by
  have hup := (c9_rate (3/2)).2.2.1 (by norm_num)
  have hdn := (c9_rate (1/2)).2.2.2 (by norm_num)
  have e1 : ((3:ℚ)/2 - 1) * 100 = 50 := by norm_num
  have e2 : (1 - (1:ℚ)/2) * 100 = 50 := by norm_num
  rw [e1] at hup
  rw [e2] at hdn
  exact ⟨hup.1.trans (by decide), hup.2.trans (by decide),
         hdn.1.trans (by decide), hdn.2.trans (by decide)⟩

/-- Claim C1: when the live caption is non-empty, matches the previous
poll's caption, and has been stable for more than 1 second, the
finalization poll prepends exactly one history entry carrying the
caption, the translation, the source/target languages computed from the
active station and the speaking station, resets the live caption and
translation to empty, and replaces the whole synthesis queue by exactly
the one new job; when the live caption is empty, the shared state is
left completely unchanged. -/
theorem c1_finalize (s : TranslatorState) (lc : String) (ss : ℚ)
    (rid : Nat) (now : ℚ) (ts : String) :
    (s.live_caption ≠ "" → s.live_caption = lc → now - ss > 1 →
      (finalization_poll s lc ss rid now ts).1.history =
        mkHistoryEntry ts s.live_caption s.live_translation
          (if s.settings.active_speaker = "A" then s.settings.speaker_a_lang
           else s.settings.speaker_b_lang)
          (if s.settings.active_speaker = "A" then s.settings.speaker_b_lang
           else s.settings.speaker_a_lang)
          s.settings.active_speaker :: s.history ∧
      (finalization_poll s lc ss rid now ts).1.live_caption = "" ∧
      (finalization_poll s lc ss rid now ts).1.live_translation = "" ∧
      (finalization_poll s lc ss rid now ts).1.tts_queue =
        [(rid, s.live_translation,
          if s.settings.active_speaker = "A" then s.settings.speaker_b_lang
          else s.settings.speaker_a_lang)]) ∧
    (s.live_caption = "" → (finalization_poll s lc ss rid now ts).1 = s) := by
  constructor
  · intro h1 h2 h3
    rw [finalization_poll]
    rw [if_pos ⟨h1, h2⟩, if_pos h3]
    exact ⟨rfl, rfl, rfl, rfl⟩
  · intro h
    rw [finalization_poll]
    rw [if_neg (fun hc => hc.1 h)]

/-- A finalization-ready state used to witness claims C1 and C10. -/
def finalReadyState (caption translated : String) : TranslatorState :=
  { initState with live_caption := caption, live_translation := translated }

/-- Claim C1, witness: station A, caption "hello" stable since time 0,
polled at time 2. -/
theorem c1_finalize_witness :
    (finalization_poll (finalReadyState "hello" "namaste") "hello" 0 1 2 "12:00:00").1.history =
      [mkHistoryEntry "12:00:00" "hello" "namaste" "en" "hi" "A"] ∧
    (finalization_poll (finalReadyState "hello" "namaste") "hello" 0 1 2 "12:00:00").1.live_caption = "" ∧
    (finalization_poll (finalReadyState "hello" "namaste") "hello" 0 1 2 "12:00:00").1.live_translation = "" ∧
    (finalization_poll (finalReadyState "hello" "namaste") "hello" 0 1 2 "12:00:00").1.tts_queue =
      [(1, "namaste", "hi")] := by
  have h := (c1_finalize (finalReadyState "hello" "namaste") "hello" 0 1 2 "12:00:00").1
    (by decide) rfl (by norm_num)
  exact ⟨h.1.trans (by decide), h.2.1, h.2.2.1, h.2.2.2.trans (by decide)⟩

/-- Claim C10: finalization does not require a non-empty translation —
with a stable non-empty caption and an empty live translation, the
committed entry's translated text is the empty string and the enqueued
synthesis job carries empty text. -/
theorem c10_finalize_empty_translation (s : TranslatorState) (lc : String)
    (ss : ℚ) (rid : Nat) (now : ℚ) (ts : String)
    (h1 : s.live_caption ≠ "") (h2 : s.live_caption = lc)
    (h3 : now - ss > 1) (h4 : s.live_translation = "") :
    (finalization_poll s lc ss rid now ts).1.history =
      mkHistoryEntry ts s.live_caption ""
        (if s.settings.active_speaker = "A" then s.settings.speaker_a_lang
         else s.settings.speaker_b_lang)
        (if s.settings.active_speaker = "A" then s.settings.speaker_b_lang
         else s.settings.speaker_a_lang)
        s.settings.active_speaker :: s.history ∧
    (finalization_poll s lc ss rid now ts).1.tts_queue =
      [(rid, "",
        if s.settings.active_speaker = "A" then s.settings.speaker_b_lang
        else s.settings.speaker_a_lang)] := by
  rw [finalization_poll]
  rw [if_pos ⟨h1, h2⟩, if_pos h3, h4]
  exact ⟨rfl, rfl⟩

/-- Claim C10, witness: caption "hello" stable past the threshold while
every translation attempt has failed, leaving the translation empty. -/
theorem c10_finalize_empty_translation_witness :
    (finalization_poll (finalReadyState "hello" "") "hello" 0 1 2 "12:00:00").1.history =
      [mkHistoryEntry "12:00:00" "hello" "" "en" "hi" "A"] ∧
    (finalization_poll (finalReadyState "hello" "") "hello" 0 1 2 "12:00:00").1.tts_queue =
      [(1, "", "hi")] := by
  have h := c10_finalize_empty_translation (finalReadyState "hello" "") "hello" 0 1 2 "12:00:00"
    (by decide) rfl (by norm_num) rfl
  exact ⟨h.1.trans (by decide), h.2.trans (by decide)⟩

/-- Claim C6: when the active station's source language equals the target
language and a (successful, non-empty) transcription triggers a
translation pass, the live translation is set to the current running
caption and the translation collaborator is never invoked. -/
theorem c6_identity_translation (s : TranslatorState) (text : String)
    (tr : String → TrOutcome) (now last_tt : ℚ)
    (htext : text ≠ "") (hth : now - last_tt > 1/2)
    (hlang : (if s.settings.active_speaker = "A" then s.settings.speaker_a_lang
              else s.settings.speaker_b_lang) =
             (if s.settings.active_speaker = "A" then s.settings.speaker_b_lang
              else s.settings.speaker_a_lang)) :
    (processor_step s (some text) tr now last_tt).st.live_translation =
      (processor_step s (some text) tr now last_tt).st.live_caption ∧
    (processor_step s (some text) tr now last_tt).invoked = false := by
  rw [processor_step]
  simp only
  rw [if_neg htext, if_pos hth, if_pos hlang]
  exact ⟨rfl, rfl⟩

/-- A state whose two stations share the language "en", used to witness
claim C6. -/
def sameLangState : TranslatorState :=
  { initState with settings := { initState.settings with speaker_b_lang := "en" } }

/-- Claim C6, witness: both stations set to "en"; the collaborator
passed in would fail if it were ever called. -/
theorem c6_identity_translation_witness :
    (processor_step sameLangState (some "hello") (fun _ => TrOutcome.err "unreachable") 1 0).st.live_translation =
      (processor_step sameLangState (some "hello") (fun _ => TrOutcome.err "unreachable") 1 0).st.live_caption ∧
    (processor_step sameLangState (some "hello") (fun _ => TrOutcome.err "unreachable") 1 0).invoked = false :=
  c6_identity_translation sameLangState "hello" (fun _ => TrOutcome.err "unreachable") 1 0
    (by decide) (by norm_num) (by decide)

/-- Claim C8: when the translation collaborator fails on the current
running caption, the shared error message reports the failure, the
previously stored live translation is left unchanged, the worker's
last-translation-time local is not advanced, and the loop continues
with the next segment. -/
theorem c8_translation_error (s : TranslatorState) (text e : String)
    (tr : String → TrOutcome) (now last_tt : ℚ)
    (htext : text ≠ "") (hth : now - last_tt > 1/2)
    (hlang : (if s.settings.active_speaker = "A" then s.settings.speaker_a_lang
              else s.settings.speaker_b_lang) ≠
             (if s.settings.active_speaker = "A" then s.settings.speaker_b_lang
              else s.settings.speaker_a_lang))
    (herr : tr (pyStrip (s.live_caption ++ " " ++ fix_words text)) = TrOutcome.err e) :
    (processor_step s (some text) tr now last_tt).st.error_msg = "Translation Error: " ++ e ∧
    (processor_step s (some text) tr now last_tt).st.live_translation = s.live_translation ∧
    (processor_step s (some text) tr now last_tt).continues = true ∧
    (processor_step s (some text) tr now last_tt).last_tt = last_tt := by
  rw [processor_step]
  simp only
  rw [if_neg htext, if_pos hth, if_neg hlang, herr]
  exact ⟨rfl, rfl, rfl, rfl⟩

/-- Claim C8, witness: default state (en → hi) with a collaborator that
always fails with "boom". -/
theorem c8_translation_error_witness :
    (processor_step initState (some "hello") (fun _ => TrOutcome.err "boom") 1 0).st.error_msg =
      "Translation Error: boom" ∧
    (processor_step initState (some "hello") (fun _ => TrOutcome.err "boom") 1 0).st.live_translation = "" ∧
    (processor_step initState (some "hello") (fun _ => TrOutcome.err "boom") 1 0).continues = true ∧
    (processor_step initState (some "hello") (fun _ => TrOutcome.err "boom") 1 0).last_tt = 0 :=
  c8_translation_error initState "hello" "boom" (fun _ => TrOutcome.err "boom") 1 0
    (by decide) (by norm_num) (by decide) rfl

/-- The capture cycle never modifies the speaking flag: only the
synthesis stage sets or clears it. -/
theorem capture_cycle_speaking_inv (s : TranslatorState) (c : CalibResult)
    (l : ListenOutcome) :
    (capture_cycle s c l).1.speaking_event = s.speaking_event := by
  rw [capture_cycle.eq_def]
  by_cases hn : s.settings.noise_reduction = true <;>
    cases c <;> cases l <;>
      by_cases hs : s.speaking_event = true <;>
        simp [hn, hs]

/-- When the speaking flag is set at the half-duplex check, the cycle
performs no listen and leaves the audio queue untouched. -/
theorem capture_cycle_paused (s : TranslatorState) (c : CalibResult)
    (l : ListenOutcome) (h : s.speaking_event = true) :
    (capture_cycle s c l).1.audio_chunk_queue = s.audio_chunk_queue ∧
    (capture_cycle s c l).2 = false := by
  rw [capture_cycle.eq_def]
  by_cases hn : s.settings.noise_reduction = true <;> cases c <;> simp [hn, h]

/-- Iterating capture cycles from a state with the speaking flag set
never grows the audio queue. -/
theorem capture_cycles_paused (inputs : List (CalibResult × ListenOutcome)) :
    ∀ s : TranslatorState, s.speaking_event = true →
      (capture_cycles s inputs).audio_chunk_queue = s.audio_chunk_queue := by
  induction inputs with
  | nil =>
    intro s _
    rfl
  | cons p rest ih =>
    intro s h
    obtain ⟨c, l⟩ := p
    rw [capture_cycles]
    rw [ih _ ((capture_cycle_speaking_inv s c l).trans h)]
    exact (capture_cycle_paused s c l h).1

/-- Claim C7: in any capture cycle that finds the speaking flag set at
the half-duplex check, the capture stage attempts no listen and
enqueues nothing; consequently, across any number of consecutive cycles
with the flag set, the audio queue receives no new segments from
capture. -/
theorem c7_half_duplex (s : TranslatorState) (c : CalibResult)
    (l : ListenOutcome) (inputs : List (CalibResult × ListenOutcome))
    (h : s.speaking_event = true) :
    (capture_cycle s c l).2 = false ∧
    (capture_cycle s c l).1.audio_chunk_queue = s.audio_chunk_queue ∧
    (capture_cycles s inputs).audio_chunk_queue = s.audio_chunk_queue :=
  ⟨(capture_cycle_paused s c l h).2, (capture_cycle_paused s c l h).1,
   capture_cycles_paused inputs s h⟩

/-- The state of a session in which the synthesis stage is currently
speaking, used to witness claim C7. -/
def speakingState : TranslatorState := { initState with speaking_event := true }

/-- Claim C7, witness: with the speaking flag forced on, two cycles in
which the microphone would deliver audio leave the queue empty. -/
theorem c7_half_duplex_witness :
    (capture_cycle speakingState CalibResult.ok (ListenOutcome.ok 7)).2 = false ∧
    (capture_cycle speakingState CalibResult.ok (ListenOutcome.ok 7)).1.audio_chunk_queue = [] ∧
    (capture_cycles speakingState
      [(CalibResult.ok, ListenOutcome.ok 7), (CalibResult.ok, ListenOutcome.ok 8)]).audio_chunk_queue = [] := by
  have h := c7_half_duplex speakingState CalibResult.ok (ListenOutcome.ok 7)
    [(CalibResult.ok, ListenOutcome.ok 7), (CalibResult.ok, ListenOutcome.ok 8)] rfl
  exact ⟨h.1, h.2.1, h.2.2⟩

/-- Claim C2, counterexample: the generation-staleness claim fails — a
capture worker of generation 1 that has passed its loop-head check and
is blocked in the listen call when session 2 starts still performs the
queue write of its in-flight iteration, because no generation check
sits between the listen and the put. -/
theorem c2_stale_never_writes_cex : ¬ StaleNeverWrites := by
  intro h
  have s1 : GenReach captureBody genInit ⟨1, 1, GenPc.inBody 0⟩ :=
    Relation.ReflTransGen.single ⟨GenLbl.quiet, GenStep.checkOk 1 1 rfl⟩
  have s2 : GenReach captureBody genInit ⟨2, 1, GenPc.inBody 0⟩ :=
    s1.tail ⟨GenLbl.ctrl, GenStep.sessionStart 1 1 (GenPc.inBody 0)⟩
  have s3 : GenReach captureBody genInit ⟨2, 1, GenPc.inBody 1⟩ :=
    s2.tail ⟨GenLbl.quiet, GenStep.bodyQuiet 2 1 0 rfl⟩
  exact h captureBody ⟨2, 1, GenPc.inBody 1⟩ GenLbl.write ⟨2, 1, GenPc.checkGen⟩
    (Or.inl rfl) s3 (by decide) (GenStep.bodyWrite 2 1 1 rfl) rfl

/-- One step preserves the staleness invariant, for any iteration body. -/
theorem gen_stale_inv_step (body : List Bool) (t t' : GenSt) (l : GenLbl)
    (hinv : GenStaleInv t) (hs : GenStep body t l t') : GenStaleInv t' := by
  cases hs with
  | checkOk r g hg => exact absurd hg (Nat.ne_of_lt hinv.1)
  | checkStale r g hg => exact ⟨hinv.1, Or.inr rfl⟩
  | bodyWrite r g i hb => rcases hinv.2 with h | h <;> simp at h
  | bodyQuiet r g i hb => rcases hinv.2 with h | h <;> simp at h
  | sessionStart r g pc => exact ⟨Nat.lt_succ_of_lt hinv.1, hinv.2⟩

/-- The staleness invariant propagates along reachability. -/
theorem gen_stale_inv_reach (body : List Bool) (s s1 : GenSt)
    (hr : GenReach body s s1) (hinv : GenStaleInv s) : GenStaleInv s1 := by
  induction hr with
  | refl => exact hinv
  | tail _ hstep ih =>
    obtain ⟨l, hl⟩ := hstep
    exact gen_stale_inv_step body _ _ l ih hl

/-- Claim C2 (amended): a worker of any of the four stages whose
captured generation is stale may still finish its in-flight iteration,
performing that iteration's remaining shared-state writes (one for
capture; several for the processor and the finalization timer); but
once it reaches a loop-head generation check it exits, and from that
point on it never writes shared state again. -/
theorem c2_stale_check_amended (body : List Bool) (_hb : PipelineBody body)
    (s s1 s2 : GenSt) (l : GenLbl)
    (hpc : s.pc = GenPc.checkGen) (hst : s.gen < s.runId)
    (hr : GenReach body s s1) (hs : GenStep body s1 l s2) : l ≠ GenLbl.write := by
  have hinv : GenStaleInv s1 := gen_stale_inv_reach body s s1 hr ⟨hst, Or.inl hpc⟩
  intro hl
  subst hl
  cases hs with
  | bodyWrite r g i hbi => rcases hinv.2 with h | h <;> simp at h

/-- Claim C2 (amended), witness: a stale capture worker at the
generation check takes the exit step, which is not a write. -/
theorem c2_stale_check_amended_witness : GenLbl.quiet ≠ GenLbl.write :=
  c2_stale_check_amended captureBody (Or.inl rfl)
    ⟨2, 1, GenPc.checkGen⟩ ⟨2, 1, GenPc.checkGen⟩ ⟨2, 1, GenPc.done⟩
    GenLbl.quiet rfl (by decide)
    Relation.ReflTransGen.refl (GenStep.checkStale 2 1 (by decide))
